import Mathlib

/-!
Shallow embedding of `src/exif2geopackage.py`: a batch utility that scans a
directory tree for JPEG files, extracts GPS coordinates from their EXIF
metadata, and collects one point record per geotagged image into a
GeoPackage dataset.

Modelling conventions:
* Python numbers appearing in GPS coordinate triples are modelled as `ℚ`
  (the source computes `d + m/60.0 + s/3600.0`).
* Python dictionaries are modelled as association lists with distinct keys
  (lookup takes the first match, which agrees with Python dictionaries).
* Python exceptions are modelled with `Except String`; a `try/except` block
  becomes a `match` on the `Except` value.
* Python truthiness (`if value:`) is modelled by an explicit `truthy`
  function on the value type (`None`, `""`, `()`, `{}` are falsy).
* The filesystem and the PIL image library are modelled as an oracle
  `FS : String → FileContent` describing what opening each path yields.
-/

set_option autoImplicit false

deriving instance DecidableEq for Except

namespace Exif2Geopackage

/-- A primitive EXIF value as it can appear in a GPS sub-dictionary:
either a string (such as a hemisphere reference `"N"`) or a tuple of
numbers (such as a degrees/minutes/seconds triple). -/
inductive PyVal where
  | str (s : String)
  | nums (xs : List ℚ)
deriving DecidableEq, Repr

/-- Python truthiness of a primitive value: the empty string and the empty
tuple are falsy, everything else is truthy. -/
def PyVal.truthy : PyVal → Bool
  | .str s => s != ""
  | .nums xs => !xs.isEmpty

/-- Python equality test between a primitive value and a string literal:
a tuple is never equal to a string. -/
def PyVal.eqStr : PyVal → String → Bool
  | .str t, s => t == s
  | .nums _, _ => false

/-- A key of the decoded EXIF dictionary: `TAGS.get(tag, tag)` either
resolves a numeric tag to a human-readable name or keeps the raw number. -/
inductive EKey where
  | name (s : String)
  | raw (n : Nat)
deriving DecidableEq, Repr

/-- `d.get(k)` on an association list modelling a Python dictionary:
the first entry with the given key, if any (keys are distinct in every
dictionary the modelled program builds, as in Python). -/
def dictGet {κ : Type} {α : Type} [DecidableEq κ] (d : List (κ × α)) (k : κ) : Option α :=
  match d with
  | [] => none
  | p :: rest => if p.1 = k then some p.2 else dictGet rest k

/-- Truthiness of `d.get(k)`: `None` (missing key) is falsy, otherwise the
value's own truthiness. -/
def optTruthy (v : Option PyVal) : Bool :=
  match v with
  | none => false
  | some v => v.truthy

/-- The GPS sub-dictionary nested under `"GPSInfo"`, with decoded keys. -/
abbrev GpsDict := List (EKey × PyVal)

/-- A value of the decoded EXIF dictionary: the `"GPSInfo"` entry holds a
nested, key-decoded GPS sub-dictionary; other entries keep their raw value
(a primitive, or an undecoded raw sub-dictionary). -/
inductive ExifVal where
  | gpsDict (d : GpsDict)
  | prim (v : PyVal)
  | rawDict (d : List (Nat × PyVal))
deriving DecidableEq, Repr

/-- The decoded EXIF dictionary returned by `get_exif`. -/
abbrev ExifData := List (EKey × ExifVal)

/-- `convert_to_degrees(value)` from the source:

    d, m, s = value
    return d + (m / 60.0) + (s / 3600.0)

Unpacking succeeds only when `value` is a numeric tuple of exactly three
components; any other value raises (a tuple of the wrong arity fails the
unpacking itself, a non-empty string unpacks to characters and then fails
on the division). -/
def convert_to_degrees (value : PyVal) : Except String ℚ :=
  match value with
  | .nums [d, m, s] => .ok (d + m / 60 + s / 3600)
  | _ => .error "ValueError: cannot unpack value into d, m, s"

/-- `get_geolocation(exif_data)` from the source: looks up `"GPSInfo"`, reads
the four GPS fields, and if all four are truthy decodes both coordinates,
negating latitude unless the reference equals `"N"` and longitude unless the
reference equals `"E"`. Any other shape yields `(None, None)`. A `"GPSInfo"`
value that is not a dictionary makes `gps_info.get` raise. -/
def get_geolocation (exif_data : ExifData) : Except String (Option ℚ × Option ℚ) :=
  match dictGet exif_data (.name "GPSInfo") with
  | some (.gpsDict gps_info) =>
      match dictGet gps_info (.name "GPSLatitude"),
            dictGet gps_info (.name "GPSLatitudeRef"),
            dictGet gps_info (.name "GPSLongitude"),
            dictGet gps_info (.name "GPSLongitudeRef") with
      | some gps_latitude, some gps_latitude_ref,
        some gps_longitude, some gps_longitude_ref =>
          if gps_latitude.truthy && gps_latitude_ref.truthy &&
             gps_longitude.truthy && gps_longitude_ref.truthy then
            match convert_to_degrees gps_latitude with
            | .error e => .error e
            | .ok lat0 =>
                let lat := if gps_latitude_ref.eqStr "N" then lat0 else 0 - lat0
                match convert_to_degrees gps_longitude with
                | .error e => .error e
                | .ok lon0 =>
                    let lon := if gps_longitude_ref.eqStr "E" then lon0 else 0 - lon0
                    .ok (some lat, some lon)
          else .ok (none, none)
      | _, _, _, _ => .ok (none, none)
  | some _ => .error "AttributeError: GPSInfo value has no get method"
  | none => .ok (none, none)

/-- A raw value of the dictionary returned by the image's EXIF accessor:
either a primitive value, or (for the GPS tag) a nested dictionary keyed by
numeric sub-tags. -/
inductive RawVal where
  | prim (v : PyVal)
  | dict (d : List (Nat × PyVal))
deriving DecidableEq, Repr

/-- What opening a given path with the image library yields. -/
inductive FileContent where
  /-- `Image.open` (or anything after it) raises: missing, unreadable, or
  unsupported file. -/
  | openError
  /-- The image object has no EXIF accessor (`hasattr` is false). -/
  | noExifAccessor
  /-- The EXIF accessor returns `None`: no metadata block. -/
  | exifNone
  /-- The EXIF accessor returns a raw tag dictionary. -/
  | exifData (tags : List (Nat × RawVal))
deriving DecidableEq, Repr

/-- The filesystem/image-library oracle: what each path opens to. -/
def FS : Type := String → FileContent

/-- `TAGS.get(tag, tag)`: PIL's EXIF tag-name table. The real table has many
entries (`271 ↦ "Make"`, ...); only the `34853 ↦ "GPSInfo"` entry affects the
modelled functions, because `"GPSInfo"` is the only decoded name the program
ever compares against or looks up — every other key matters only through its
presence. -/
def TAGS_get (tag : Nat) : EKey :=
  if tag = 34853 then .name "GPSInfo" else .raw tag

/-- `GPSTAGS.get(t, t)`: PIL's GPS sub-tag-name table, restricted to the four
entries the program looks up; other sub-tags keep their raw number (again,
only their presence can matter). -/
def GPSTAGS_get (t : Nat) : EKey :=
  if t = 1 then .name "GPSLatitudeRef"
  else if t = 2 then .name "GPSLatitude"
  else if t = 3 then .name "GPSLongitudeRef"
  else if t = 4 then .name "GPSLongitude"
  else .raw t

/-- The inner loop of `get_exif` on the `"GPSInfo"` value:
`for t in value: gps_data[GPSTAGS.get(t, t)] = value[t]`. When the value is a
dictionary this decodes its keys; when it is any other non-empty value the
loop body raises (`value[t]` on a tuple indexed by its own elements, or on a
string indexed by a character, is a `TypeError`); when it is empty the loop
never runs and leaves an empty `gps_data`. -/
def decodeGpsValue : RawVal → Except String GpsDict
  | .dict d => .ok (d.map (fun tv => (GPSTAGS_get tv.1, tv.2)))
  | .prim v => if v.truthy then .error "TypeError: GPSInfo value is not a mapping"
               else .ok []

/-- The tag-decoding loop of `get_exif`: each raw tag becomes an entry keyed
by `TAGS.get(tag, tag)`; the `"GPSInfo"` entry gets its sub-dictionary
decoded by `decodeGpsValue`, every other entry keeps its raw value. -/
def decodeExif : List (Nat × RawVal) → Except String ExifData
  | [] => .ok []
  | (tag, value) :: rest =>
      let decoded := TAGS_get tag
      let entry : Except String ExifVal :=
        if decoded = .name "GPSInfo" then
          match decodeGpsValue value with
          | .error e => .error e
          | .ok g => .ok (.gpsDict g)
        else
          match value with
          | .prim v => .ok (.prim v)
          | .dict d => .ok (.rawDict d)
      match entry with
      | .error e => .error e
      | .ok v =>
          match decodeExif rest with
          | .error e => .error e
          | .ok restD => .ok ((decoded, v) :: restD)

/-- The body of `get_exif`'s `try` block: open the file, and if it has a
metadata block decode it; with no accessor or no block the dictionary stays
empty. Raises (`.error`) exactly where the Python body would. -/
def get_exif_run (fs : FS) (filename : String) : Except String (String × Option ExifData) :=
  match fs filename with
  | .openError => .error ("cannot identify image file " ++ filename)
  | .noExifAccessor => .ok (filename, some [])
  | .exifNone => .ok (filename, some [])
  | .exifData tags =>
      match decodeExif tags with
      | .error e => .error e
      | .ok d => .ok (filename, some d)

/-- `get_exif(filename)` from the source: the `try` body with every exception
caught, printed as a diagnostic, and turned into `(filename, None)`. The
second component of the result is the list of printed diagnostic lines. -/
def get_exif (fs : FS) (filename : String) : (String × Option ExifData) × List String :=
  match get_exif_run fs filename with
  | .ok r => (r, [])
  | .error e => ((filename, none), ["Error reading EXIF data from " ++ filename ++ ": " ++ e])

/-- A shapely `Point(x, y)`: the program constructs `Point(lon, lat)`. -/
structure Point where
  x : ℚ
  y : ℚ
deriving DecidableEq, Repr

/-- The record built for one geotagged image:
`{'geometry': Point(lon, lat), 'filename': filename}`. -/
structure Record where
  geometry : Point
  filename : String
deriving DecidableEq, Repr

/-- `process_image(filename)` from the source: extract metadata, and when it
is truthy resolve the geolocation; a resolved pair of coordinates yields a
record, anything else yields `None`. Exceptions raised by the resolver are
not caught here. -/
def process_image (fs : FS) (filename : String) : Except String (Option Record) :=
  let exif_data := ((get_exif fs filename).1).2
  match exif_data with
  | none => .ok none
  | some d =>
      if d.isEmpty then .ok none
      else
        match get_geolocation d with
        | .error e => .error e
        | .ok (some lat, some lon) => .ok (some ⟨⟨lon, lat⟩, filename⟩)
        | .ok _ => .ok none

/-- The collection loop of `create_geopackage`: run `process_image` on every
submitted path and append each truthy (non-`None`) result. `future.result()`
re-raises any exception a worker raised, so a single raising worker makes
the whole collection raise. The pool completes futures in a nondeterministic
order; the collection is modelled in submission order, which has the same
results up to permutation because the per-file results are independent. -/
def collectResults (fs : FS) : List String → Except String (List Record)
  | [] => .ok []
  | jpeg :: rest =>
      match process_image fs jpeg with
      | .error e => .error e
      | .ok r =>
          match collectResults fs rest with
          | .error e => .error e
          | .ok rs =>
              match r with
              | some rec => .ok (rec :: rs)
              | none => .ok rs

/-- A `geopandas.GeoDataFrame(data, crs=...)`: the collected records plus a
coordinate reference system identifier. -/
structure GeoDataFrame where
  data : List Record
  crs : String
deriving DecidableEq, Repr

/-- `create_geopackage(jpegs, output_file)` from the source: collect the
per-image records, and only when the collection is non-empty build a
GeoDataFrame with CRS `"EPSG:4326"` and write it to `output_file`. The
result models the written file: `none` means no file was produced. -/
def create_geopackage (fs : FS) (jpegs : List String) (output_file : String) :
    Except String (Option (String × GeoDataFrame)) :=
  match collectResults fs jpegs with
  | .error e => .error e
  | .ok data =>
      if data.isEmpty then .ok none
      else .ok (some (output_file, ⟨data, "EPSG:4326"⟩))

/-- A directory tree: plain file names plus named subdirectories. -/
inductive Dir where
  | node (files : List String) (subdirs : List (String × Dir))

/-- `os.path.join(root, name)` for a relative name. -/
def joinPath (root name : String) : String := root ++ "/" ++ name

/-- `str.lower()`, character by character (file extensions are ASCII). -/
def lower (s : String) : String := String.mk (s.data.map Char.toLower)

/-- `str.endswith(suffix)`. -/
def endswith (s suffix : String) : Bool := suffix.data.isSuffixOf s.data

/-- The extension test of `find_jpegs`:
`file.lower().endswith(".jpeg") or file.lower().endswith(".jpg")`. -/
def isJpegName (file : String) : Bool :=
  endswith (lower file) ".jpeg" || endswith (lower file) ".jpg"

mutual

/-- `find_jpegs(root_folder)` from the source: walk the tree top-down
(`os.walk`), collecting `os.path.join(root, file)` for every file whose
lowered name ends in `".jpeg"` or `".jpg"`. -/
def find_jpegs (root : String) : Dir → List String
  | .node files subdirs =>
      (files.filter isJpegName).map (joinPath root) ++ find_jpegs_in root subdirs

/-- The recursion of `os.walk` into the named subdirectories. -/
def find_jpegs_in (root : String) : List (String × Dir) → List String
  | [] => []
  | (name, sub) :: rest => find_jpegs (joinPath root name) sub ++ find_jpegs_in root rest

end

mutual

/-- Every file of the tree as `(full path, file name)`, in `os.walk` order:
the reference enumeration used to state what `find_jpegs` selects. -/
def walkFiles (root : String) : Dir → List (String × String)
  | .node files subdirs =>
      files.map (fun f => (joinPath root f, f)) ++ walkFiles_in root subdirs

/-- The subdirectory part of `walkFiles`. -/
def walkFiles_in (root : String) : List (String × Dir) → List (String × String)
  | [] => []
  | (name, sub) :: rest => walkFiles (joinPath root name) sub ++ walkFiles_in root rest

end

/-- The metadata dictionary `process_image` receives for a path: the second
component of `get_exif`'s returned pair. -/
def metaOf (fs : FS) (filename : String) : Option ExifData :=
  ((get_exif fs filename).1).2

/-- Whether an `Except` computation succeeded (no exception was raised). -/
def isOkE {ε α : Type} : Except ε α → Bool
  | .ok _ => true
  | .error _ => false

/-- The per-path record with a raised exception collapsed to `none`; used to
state the batch result under the hypothesis that no worker raised. -/
def okRecord (fs : FS) (f : String) : Option Record :=
  match process_image fs f with
  | .ok r => r
  | .error _ => none

/-- Fixture: every path opens to complete, truthy GPS data whose latitude
value is a two-component tuple (a malformed triple). -/
def fsBadLat : FS := fun _ =>
  .exifData [(34853, .dict
    [(1, .str "N"), (2, .nums [1, 2]), (3, .str "E"), (4, .nums [1, 2, 3])])]

/-- Fixture: every path opens to complete, truthy GPS data whose longitude
value is a four-component tuple (a malformed triple). -/
def fsBadLon : FS := fun _ =>
  .exifData [(34853, .dict
    [(1, .str "N"), (2, .nums [1, 2, 3]), (3, .str "E"), (4, .nums [1, 2, 3, 4])])]

/-- Fixture: every path opens as an image with no metadata block. -/
def fsNoExif : FS := fun _ => .exifNone

/-- Fixture: no path can be opened as an image. -/
def fsOpenErr : FS := fun _ => .openError

/-- Fixture: every path opens to a geotagged image at 10 deg 30 min N, 20 deg W. -/
def fsGood : FS := fun _ =>
  .exifData [(34853, .dict
    [(1, .str "N"), (2, .nums [10, 30, 0]), (3, .str "W"), (4, .nums [20, 0, 0])])]

/-- Fixture: every path opens to metadata without GPS data (a lone
date-time tag, number 306). -/
def fsNoGps : FS := fun _ => .exifData [(306, .prim (.str "2024:01:01 00:00:00"))]

/-- Fixture: one geotagged image among files without a metadata block. -/
def fsMixed : FS := fun fn =>
  if fn = "good.jpg" then
    .exifData [(34853, .dict
      [(1, .str "N"), (2, .nums [10, 30, 0]), (3, .str "W"), (4, .nums [20, 0, 0])])]
  else .exifNone

end Exif2Geopackage

namespace Exif2Geopackage

/-- The string-equality test never succeeds on a tuple and compares exactly
on strings. -/
theorem PyVal.eqStr_iff (v : PyVal) (s : String) : v.eqStr s = true ↔ v = .str s := by
  cases v <;> simp [PyVal.eqStr]

/-- Shared guard lemma: when the `"GPSInfo"` sub-dictionary is present but
any one of the four GPS fields is missing or falsy, the combined truthiness
test fails and `get_geolocation` returns `(None, None)`. -/
theorem get_geolocation_guard_fails (exif_data : ExifData) (g : GpsDict)
    (hg : dictGet exif_data (.name "GPSInfo") = some (.gpsDict g))
    (h : optTruthy (dictGet g (.name "GPSLatitude")) = false ∨
         optTruthy (dictGet g (.name "GPSLatitudeRef")) = false ∨
         optTruthy (dictGet g (.name "GPSLongitude")) = false ∨
         optTruthy (dictGet g (.name "GPSLongitudeRef")) = false) :
    get_geolocation exif_data = .ok (none, none) := by
  unfold get_geolocation
  rw [hg]
  rcases h1 : dictGet g (.name "GPSLatitude") with _ | v1 <;>
    rcases h2 : dictGet g (.name "GPSLatitudeRef") with _ | v2 <;>
      rcases h3 : dictGet g (.name "GPSLongitude") with _ | v3 <;>
        rcases h4 : dictGet g (.name "GPSLongitudeRef") with _ | v4 <;>
          simp_all [optTruthy] <;>
            (intro ht1 ht2 ht3 ht4; rcases h with h | h | h | h <;> simp_all)

/-- C3: for every triple of non-negative numbers (degrees, minutes, seconds)
with minutes and seconds in `[0, 60)`, `convert_to_degrees` returns exactly
`degrees + minutes/60 + seconds/3600`. -/
theorem C3_convert_to_degrees_formula (d m s : ℚ)
    (hd : 0 ≤ d) (hm0 : 0 ≤ m) (hm : m < 60) (hs0 : 0 ≤ s) (hs : s < 60) :
    convert_to_degrees (.nums [d, m, s]) = .ok (d + m / 60 + s / 3600) := rfl

/-- Witness for C3 at the concrete triple (12, 30, 18). -/
theorem C3_convert_to_degrees_formula_witness :
    convert_to_degrees (.nums [12, 30, 18]) = .ok (12 + 30 / 60 + 18 / 3600) :=
  C3_convert_to_degrees_formula 12 30 18 (by norm_num) (by norm_num) (by norm_num)
    (by norm_num) (by norm_num)

/-- C2: when the `GPSInfo` block holds all four GPS fields with truthy
values (and the coordinate triples decode), `get_geolocation` negates the
decoded latitude exactly when the latitude reference differs from the exact
string `"N"`, and the decoded longitude exactly when the longitude reference
differs from the exact string `"E"` — malformed (non-string or unexpected)
references included. -/
theorem C2_get_geolocation_ref_negation (exif_data : ExifData) (g : GpsDict)
    (glat glatref glon glonref : PyVal) (latq lonq : ℚ)
    (hg : dictGet exif_data (.name "GPSInfo") = some (.gpsDict g))
    (h1 : dictGet g (.name "GPSLatitude") = some glat)
    (h2 : dictGet g (.name "GPSLatitudeRef") = some glatref)
    (h3 : dictGet g (.name "GPSLongitude") = some glon)
    (h4 : dictGet g (.name "GPSLongitudeRef") = some glonref)
    (ht1 : glat.truthy = true) (ht2 : glatref.truthy = true)
    (ht3 : glon.truthy = true) (ht4 : glonref.truthy = true)
    (hlat : convert_to_degrees glat = .ok latq)
    (hlon : convert_to_degrees glon = .ok lonq) :
    (glatref = .str "N" → glonref = .str "E" →
        get_geolocation exif_data = .ok (some latq, some lonq)) ∧
    (glatref ≠ .str "N" → glonref = .str "E" →
        get_geolocation exif_data = .ok (some (0 - latq), some lonq)) ∧
    (glatref = .str "N" → glonref ≠ .str "E" →
        get_geolocation exif_data = .ok (some latq, some (0 - lonq))) ∧
    (glatref ≠ .str "N" → glonref ≠ .str "E" →
        get_geolocation exif_data = .ok (some (0 - latq), some (0 - lonq))) := by
  have hmain : get_geolocation exif_data =
      .ok (some (if glatref.eqStr "N" then latq else 0 - latq),
           some (if glonref.eqStr "E" then lonq else 0 - lonq)) := by
    unfold get_geolocation
    rw [hg]
    simp [h1, h2, h3, h4, ht1, ht2, ht3, ht4, hlat, hlon]
  refine ⟨?_, ?_, ?_, ?_⟩ <;> intro hN hE <;> rw [hmain] <;>
    simp [PyVal.eqStr_iff, hN, hE]

/-- Witness for C2: a southern-hemisphere latitude reference and a malformed
(tuple-valued) longitude reference both trigger negation. -/
theorem C2_get_geolocation_ref_negation_witness :
    get_geolocation [(.name "GPSInfo", .gpsDict
        [(.name "GPSLatitude", .nums [10, 30, 0]), (.name "GPSLatitudeRef", .str "S"),
         (.name "GPSLongitude", .nums [20, 0, 0]), (.name "GPSLongitudeRef", .nums [5])])] =
      .ok (some (0 - (10 + 30 / 60 + 0 / 3600)), some (0 - (20 + 0 / 60 + 0 / 3600))) :=
  (C2_get_geolocation_ref_negation
      [(.name "GPSInfo", .gpsDict
        [(.name "GPSLatitude", .nums [10, 30, 0]), (.name "GPSLatitudeRef", .str "S"),
         (.name "GPSLongitude", .nums [20, 0, 0]), (.name "GPSLongitudeRef", .nums [5])])]
      [(.name "GPSLatitude", .nums [10, 30, 0]), (.name "GPSLatitudeRef", .str "S"),
       (.name "GPSLongitude", .nums [20, 0, 0]), (.name "GPSLongitudeRef", .nums [5])]
      (.nums [10, 30, 0]) (.str "S") (.nums [20, 0, 0]) (.nums [5])
      (10 + 30 / 60 + 0 / 3600) (20 + 0 / 60 + 0 / 3600)
      rfl rfl rfl rfl rfl rfl rfl rfl rfl rfl rfl).2.2.2
    (by simp) (by simp)

/-- C4: a metadata dictionary lacking `"GPSInfo"`, or whose `GPSInfo`
sub-dictionary lacks any one of the four GPS fields, resolves to
`(None, None)` — no partial value and no error. -/
theorem C4_get_geolocation_missing_fields (exif_data : ExifData)
    (h : dictGet exif_data (.name "GPSInfo") = none ∨
         ∃ g, dictGet exif_data (.name "GPSInfo") = some (.gpsDict g) ∧
           (dictGet g (.name "GPSLatitude") = none ∨
            dictGet g (.name "GPSLatitudeRef") = none ∨
            dictGet g (.name "GPSLongitude") = none ∨
            dictGet g (.name "GPSLongitudeRef") = none)) :
    get_geolocation exif_data = .ok (none, none) := by
  rcases h with h | ⟨g, hg, h⟩
  · unfold get_geolocation
    rw [h]
  · refine get_geolocation_guard_fails exif_data g hg ?_
    rcases h with h | h | h | h <;> simp [h, optTruthy]

/-- Witness for C4 at a dictionary whose GPS block lacks the longitude. -/
theorem C4_get_geolocation_missing_fields_witness :
    get_geolocation [(.name "GPSInfo", .gpsDict
        [(.name "GPSLatitude", .nums [10, 30, 0]),
         (.name "GPSLatitudeRef", .str "N"),
         (.name "GPSLongitudeRef", .str "E")])] = .ok (none, none) :=
  C4_get_geolocation_missing_fields _ (Or.inr ⟨_, rfl, Or.inr (Or.inr (Or.inl rfl))⟩)

/-- C10: a GPS field that is present but falsy (empty string reference or
empty tuple) is treated exactly like a missing field: `get_geolocation`
returns `(None, None)`, because the check is on the truthiness of each
value, not on key presence. -/
theorem C10_get_geolocation_falsy_field (exif_data : ExifData) (g : GpsDict)
    (hg : dictGet exif_data (.name "GPSInfo") = some (.gpsDict g))
    (h : (∃ v, dictGet g (.name "GPSLatitude") = some v ∧ v.truthy = false) ∨
         (∃ v, dictGet g (.name "GPSLatitudeRef") = some v ∧ v.truthy = false) ∨
         (∃ v, dictGet g (.name "GPSLongitude") = some v ∧ v.truthy = false) ∨
         (∃ v, dictGet g (.name "GPSLongitudeRef") = some v ∧ v.truthy = false)) :
    get_geolocation exif_data = .ok (none, none) := by
  refine get_geolocation_guard_fails exif_data g hg ?_
  rcases h with ⟨v, hv, hf⟩ | ⟨v, hv, hf⟩ | ⟨v, hv, hf⟩ | ⟨v, hv, hf⟩ <;>
    simp [hv, hf, optTruthy]

/-- Witness for C10 at a dictionary whose latitude reference is present but
is the empty string. -/
theorem C10_get_geolocation_falsy_field_witness :
    get_geolocation [(.name "GPSInfo", .gpsDict
        [(.name "GPSLatitude", .nums [10, 30, 0]),
         (.name "GPSLatitudeRef", .str ""),
         (.name "GPSLongitude", .nums [20, 0, 0]),
         (.name "GPSLongitudeRef", .str "E")])] = .ok (none, none) :=
  C10_get_geolocation_falsy_field _ _ rfl (Or.inr (Or.inl ⟨.str "", rfl, rfl⟩))

/-- The file entries of a single directory contribute to `find_jpegs`
exactly their name-filtered, root-joined paths. -/
theorem walkFiles_filter_map (root : String) (files : List String) :
    ((files.map (fun f => (joinPath root f, f))).filter (fun p => isJpegName p.2)).map
        Prod.fst =
      (files.filter isJpegName).map (joinPath root) := by
  induction files with
  | nil => rfl
  | cons a l ih => by_cases h : isJpegName a <;> simp [h, ih]

mutual

/-- `find_jpegs` selects from all walked files exactly those whose name
passes the extension test. -/
theorem find_jpegs_eq_walk (root : String) (d : Dir) :
    find_jpegs root d =
      ((walkFiles root d).filter (fun p => isJpegName p.2)).map Prod.fst := by
  cases d with
  | node files subdirs =>
      rw [find_jpegs, walkFiles, List.filter_append, List.map_append,
        walkFiles_filter_map, find_jpegs_in_eq_walk root subdirs]

/-- Subdirectory part of `find_jpegs_eq_walk`. -/
theorem find_jpegs_in_eq_walk (root : String) (l : List (String × Dir)) :
    find_jpegs_in root l =
      ((walkFiles_in root l).filter (fun p => isJpegName p.2)).map Prod.fst := by
  cases l with
  | nil => rfl
  | cons p rest =>
      cases p with
      | mk name sub =>
          rw [find_jpegs_in, walkFiles_in, List.filter_append, List.map_append,
            find_jpegs_eq_walk (joinPath root name) sub, find_jpegs_in_eq_walk root rest]

end

/-- C6: for every directory tree, `find_jpegs` returns exactly the files (at
any depth) whose names end in `".jpeg"` or `".jpg"` case-insensitively, and
no others; in particular a tree with `a.jpg`, `b.JPEG`, `c.png`, `sub/d.jpg`
yields exactly the three matching entries. -/
theorem C6_find_jpegs_exactly :
    (∀ (root : String) (d : Dir),
        find_jpegs root d =
          ((walkFiles root d).filter (fun p => isJpegName p.2)).map Prod.fst) ∧
    find_jpegs "r" (Dir.node ["a.jpg", "b.JPEG", "c.png"] [("sub", .node ["d.jpg"] [])]) =
      ["r/a.jpg", "r/b.JPEG", "r/sub/d.jpg"] :=
  ⟨find_jpegs_eq_walk, by decide⟩

/-- When the extractor's body raises, `get_exif` returns the absence marker
and `process_image` therefore returns absence. -/
theorem process_image_of_run_error (fs : FS) (fn : String) (e : String)
    (he : get_exif_run fs fn = .error e) : process_image fs fn = .ok none := by
  simp [process_image, get_exif, he]

/-- When the metadata is present and truthy and the resolver yields both
coordinates, `process_image` builds the record `{Point(lon, lat), fn}`. -/
theorem process_image_ok_of_geoloc (fs : FS) (fn : String) (d : ExifData) (lat lon : ℚ)
    (hm : metaOf fs fn = some d) (hne : d.isEmpty = false)
    (hg : get_geolocation d = .ok (some lat, some lon)) :
    process_image fs fn = .ok (some ⟨⟨lon, lat⟩, fn⟩) := by
  unfold metaOf at hm
  simp [process_image, hm, hne, hg]

/-- Every record `process_image` produces carries the input path as its
filename and a resolver-produced coordinate pair as its geometry. -/
theorem process_image_ok_some (fs : FS) (fn : String) (r : Record)
    (h : process_image fs fn = .ok (some r)) :
    r.filename = fn ∧ ∃ d lat lon, metaOf fs fn = some d ∧ d.isEmpty = false ∧
      get_geolocation d = .ok (some lat, some lon) ∧ r.geometry = ⟨lon, lat⟩ := by
  unfold process_image at h
  rcases hm : ((get_exif fs fn).1).2 with _ | d <;> simp only [hm] at h
  · exact absurd h (by simp)
  · by_cases hd : d.isEmpty = true
    · rw [if_pos hd] at h
      exact absurd h (by simp)
    · rw [if_neg hd] at h
      rcases hg : get_geolocation d with e | ⟨_ | la, _ | lo⟩ <;> simp only [hg] at h <;>
        simp only [Except.ok.injEq, Option.some.injEq, reduceCtorEq] at h
      exact ⟨by rw [← h], d, la, lo, hm, by simpa using hd, hg, by rw [← h]⟩

/-- When the metadata is present and truthy but the resolver yields anything
other than two coordinates without raising, `process_image` returns
absence. -/
theorem process_image_none_of_geoloc (fs : FS) (fn : String) (d : ExifData)
    (p : Option ℚ × Option ℚ) (hm : metaOf fs fn = some d)
    (hg : get_geolocation d = .ok p) (hp : ∀ lat lon, p ≠ (some lat, some lon)) :
    process_image fs fn = .ok none := by
  unfold metaOf at hm
  unfold process_image
  simp only [hm]
  by_cases hd : d.isEmpty = true
  · rw [if_pos hd]
  · rw [if_neg hd]
    rcases p with ⟨_ | la, _ | lo⟩
    · simp only [hg]
    · simp only [hg]
    · simp only [hg]
    · exact absurd rfl (hp la lo)

/-- When the metadata is absent or empty, `process_image` returns absence. -/
theorem process_image_none_of_falsy (fs : FS) (fn : String)
    (h : metaOf fs fn = none ∨ metaOf fs fn = some []) :
    process_image fs fn = .ok none := by
  unfold metaOf at h
  unfold process_image
  rcases h with h | h <;> simp only [h] <;> rfl

/-- An exception escaping `process_image` comes from the resolver on
present, truthy metadata. -/
theorem process_image_error_source (fs : FS) (fn : String) (e : String)
    (h : process_image fs fn = .error e) :
    ∃ d, metaOf fs fn = some d ∧ d.isEmpty = false ∧ get_geolocation d = .error e := by
  unfold process_image at h
  rcases hm : ((get_exif fs fn).1).2 with _ | d <;> simp only [hm] at h
  · exact absurd h (by simp)
  · by_cases hd : d.isEmpty = true
    · rw [if_pos hd] at h
      exact absurd h (by simp)
    · rw [if_neg hd] at h
      rcases hg : get_geolocation d with e' | ⟨_ | la, _ | lo⟩ <;> simp only [hg] at h <;>
        simp only [Except.error.injEq, reduceCtorEq] at h
      exact ⟨d, hm, by simpa using hd, by rw [hg, h]⟩

/-- C1 counterexample: on a file with complete, truthy GPS data whose
latitude value is a two-component tuple, the unpacking in
`convert_to_degrees` raises and the exception propagates out of
`process_image` to its caller instead of collapsing to absence. -/
theorem C1_counterexample :
    process_image fsBadLat "bad.jpg" =
      .error "ValueError: cannot unpack value into d, m, s" ∧
    isOkE (process_image fsBadLat "bad.jpg") = false :=
  ⟨rfl, rfl⟩

/-- C1 (amended): failures inside the Metadata Extractor (`get_exif`) always
collapse to absence; the only exception `process_image` can propagate to its
caller is one raised by the Geolocation Resolver on present, truthy
metadata — such as a GPS triple that is not a three-component numeric
tuple — and whenever the resolver does not raise on the extracted metadata,
`process_image` returns a record or absence. -/
theorem C1_process_image_failure_policy (fs : FS) (fn : String) :
    (∀ e, get_exif_run fs fn = .error e → process_image fs fn = .ok none) ∧
    (∀ e, process_image fs fn = .error e →
        ∃ d, metaOf fs fn = some d ∧ d.isEmpty = false ∧
          get_geolocation d = .error e) ∧
    ((∀ d, metaOf fs fn = some d → isOkE (get_geolocation d) = true) →
        ∃ r, process_image fs fn = .ok r) := by
  refine ⟨process_image_of_run_error fs fn, process_image_error_source fs fn, ?_⟩
  intro hok
  rcases he : process_image fs fn with e | r
  · rcases process_image_error_source fs fn e he with ⟨d, hm, hne, hg⟩
    have hd := hok d hm
    rw [hg] at hd
    exact absurd hd (by simp [isOkE])
  · exact ⟨r, rfl⟩

/-- Witness for C1 (amended) on a geotagged image: the resolver raises
nowhere, so `process_image` returns without an exception. -/
theorem C1_process_image_failure_policy_witness :
    ∃ r, process_image fsGood "img.jpg" = .ok r :=
  (C1_process_image_failure_policy fsGood "img.jpg").2.2
    (fun d hm => by
      have hconc : metaOf fsGood "img.jpg" = some [(.name "GPSInfo", .gpsDict
          [(.name "GPSLatitudeRef", .str "N"), (.name "GPSLatitude", .nums [10, 30, 0]),
           (.name "GPSLongitudeRef", .str "W"),
           (.name "GPSLongitude", .nums [20, 0, 0])])] := rfl
      rw [hconc] at hm
      cases hm
      rfl)

/-- C7 counterexample: a file that opens but has no metadata block yields
`(path, {})` — an empty dictionary, not the `None` absence marker — and no
diagnostic line is printed, against the claim that every failure case
returns `(path, absent)` after printing a diagnostic message. -/
theorem C7_counterexample :
    (get_exif fsNoExif "a.jpg").1.2 = some [] ∧
    (get_exif fsNoExif "a.jpg").1.2 ≠ none ∧
    (get_exif fsNoExif "a.jpg").2 = [] := by
  refine ⟨rfl, ?_, rfl⟩
  simp [get_exif, get_exif_run, fsNoExif]

/-- C7 (amended): `get_exif` never raises to its caller: every exception in
its body is caught, printed as one diagnostic line, and turned into
`(filename, None)` — in particular when the file cannot be opened as an
image. A file that opens but lacks the EXIF accessor or the metadata block
yields `(filename, {})` with no diagnostic. In all failure cases the
metadata value is falsy, so an unreadable or corrupt file never aborts the
batch. -/
theorem C7_get_exif_never_raises (fs : FS) (fn : String) :
    (∀ e, get_exif_run fs fn = .error e →
        get_exif fs fn =
          ((fn, none), ["Error reading EXIF data from " ++ fn ++ ": " ++ e])) ∧
    (fs fn = .openError →
        get_exif fs fn =
          ((fn, none),
           ["Error reading EXIF data from " ++ fn ++ ": " ++
             ("cannot identify image file " ++ fn)])) ∧
    (fs fn = .noExifAccessor → get_exif fs fn = ((fn, some []), [])) ∧
    (fs fn = .exifNone → get_exif fs fn = ((fn, some []), [])) := by
  refine ⟨?_, ?_, ?_, ?_⟩
  · intro e he
    simp [get_exif, he]
  · intro h
    simp [get_exif, get_exif_run, h]
  · intro h
    simp [get_exif, get_exif_run, h]
  · intro h
    simp [get_exif, get_exif_run, h]

/-- Witness for C7 (amended) on an unopenable file: the caught exception
becomes `(path, None)` plus one printed diagnostic. -/
theorem C7_get_exif_never_raises_witness :
    get_exif fsOpenErr "x.jpg" =
      (("x.jpg", none),
       ["Error reading EXIF data from " ++ "x.jpg" ++ ": " ++
         ("cannot identify image file " ++ "x.jpg")]) :=
  (C7_get_exif_never_raises fsOpenErr "x.jpg").2.1 rfl

/-- C8 counterexample: with metadata present whose longitude value is a
four-component tuple, the resolver raises, so `process_image` neither
returns a record nor absence — against the claim that every non-record case
returns absence. -/
theorem C8_counterexample :
    process_image fsBadLon "b.jpg" =
      .error "ValueError: cannot unpack value into d, m, s" ∧
    process_image fsBadLon "b.jpg" ≠ .ok none := by
  have h : process_image fsBadLon "b.jpg" =
      .error "ValueError: cannot unpack value into d, m, s" := rfl
  refine ⟨h, ?_⟩
  rw [h]
  simp

/-- C8 (amended): when the extracted metadata is present and truthy and the
Geolocation Resolver yields both coordinates, `process_image` returns the
record with point geometry `(longitude, latitude)` — longitude first — and
the input path as its filename, and every produced record is of this shape;
when the metadata is absent or empty, or the resolver yields anything other
than two coordinates without raising, it returns absence (a resolver
exception being the one remaining, propagating case). -/
theorem C8_process_image_record (fs : FS) (fn : String) :
    (∀ d lat lon, metaOf fs fn = some d → d.isEmpty = false →
        get_geolocation d = .ok (some lat, some lon) →
        process_image fs fn = .ok (some ⟨⟨lon, lat⟩, fn⟩)) ∧
    (∀ r, process_image fs fn = .ok (some r) →
        r.filename = fn ∧ ∃ d lat lon, metaOf fs fn = some d ∧
          get_geolocation d = .ok (some lat, some lon) ∧ r.geometry = ⟨lon, lat⟩) ∧
    (∀ d p, metaOf fs fn = some d → get_geolocation d = .ok p →
        (∀ lat lon, p ≠ (some lat, some lon)) → process_image fs fn = .ok none) ∧
    (metaOf fs fn = none ∨ metaOf fs fn = some [] → process_image fs fn = .ok none) := by
  refine ⟨fun d lat lon hm hne hg => process_image_ok_of_geoloc fs fn d lat lon hm hne hg,
    fun r h => ?_,
    fun d p hm hg hp => process_image_none_of_geoloc fs fn d p hm hg hp,
    process_image_none_of_falsy fs fn⟩
  obtain ⟨h1, d, lat, lon, hm, hne, hg, hgeo⟩ := process_image_ok_some fs fn r h
  exact ⟨h1, d, lat, lon, hm, hg, hgeo⟩

/-- Witness for C8 (amended) on a geotagged image at 10 deg 30 min N, 20 deg W: the
record's point is `(longitude, latitude)` with the west longitude negated,
and the filename is the input path. -/
theorem C8_process_image_record_witness :
    process_image fsGood "img2.jpg" =
      .ok (some ⟨⟨0 - (20 + 0 / 60 + 0 / 3600), 10 + 30 / 60 + 0 / 3600⟩, "img2.jpg"⟩) :=
  (C8_process_image_record fsGood "img2.jpg").1
    [(.name "GPSInfo", .gpsDict
      [(.name "GPSLatitudeRef", .str "N"), (.name "GPSLatitude", .nums [10, 30, 0]),
       (.name "GPSLongitudeRef", .str "W"), (.name "GPSLongitude", .nums [20, 0, 0])])]
    (10 + 30 / 60 + 0 / 3600) (0 - (20 + 0 / 60 + 0 / 3600)) rfl rfl rfl

/-- When no worker raises, the batch collection equals the submission-order
list of non-absent per-file results. -/
theorem collectResults_eq_filterMap (fs : FS) (l : List String)
    (h : ∀ f ∈ l, isOkE (process_image fs f) = true) :
    collectResults fs l = .ok (l.filterMap (okRecord fs)) := by
  induction l with
  | nil => rfl
  | cons a rest ih =>
      have ha := h a (List.mem_cons_self a rest)
      have hrest := ih (fun f hf => h f (List.mem_cons_of_mem a hf))
      unfold collectResults
      rcases hp : process_image fs a with e | r
      · rw [hp] at ha
        exact absurd ha (by simp [isOkE])
      · simp only [hp, hrest]
        cases r <;> simp [okRecord, hp, List.filterMap_cons]

/-- The length of a `filterMap` counts the inputs mapped to `some`. -/
theorem length_filterMap_eq_countP {α β : Type} (f : α → Option β) (l : List α) :
    (l.filterMap f).length = l.countP (fun a => (f a).isSome) := by
  induction l with
  | nil => rfl
  | cons a rest ih =>
      rcases hf : f a with _ | b <;>
        simp [List.filterMap_cons, hf, ih, List.countP_cons]

/-- C5: over N submitted paths of which exactly K yield a valid geolocation
(and none raises), the collected dataset has exactly K records, each the
point-plus-source-path record of one geotagged input; with K = 0 the write
step is skipped and no output file is produced, otherwise the records are
written with CRS EPSG:4326. -/
theorem C5_create_geopackage_records (fs : FS) (jpegs : List String) (out : String)
    (h : ∀ f ∈ jpegs, isOkE (process_image fs f) = true) :
    ∃ recs, collectResults fs jpegs = .ok recs ∧
      recs.length = jpegs.countP (fun f => (okRecord fs f).isSome) ∧
      (∀ r ∈ recs, ∃ f ∈ jpegs, process_image fs f = .ok (some r) ∧ r.filename = f) ∧
      (recs = [] → create_geopackage fs jpegs out = .ok none) ∧
      (recs ≠ [] →
        create_geopackage fs jpegs out = .ok (some (out, ⟨recs, "EPSG:4326"⟩))) := by
  have hc := collectResults_eq_filterMap fs jpegs h
  refine ⟨jpegs.filterMap (okRecord fs), hc, length_filterMap_eq_countP _ _, ?_, ?_, ?_⟩
  · intro r hr
    rcases List.mem_filterMap.mp hr with ⟨f, hf, hok⟩
    have hpi : process_image fs f = .ok (some r) := by
      unfold okRecord at hok
      rcases hp : process_image fs f with e | r' <;> simp only [hp] at hok
      · exact absurd hok (by simp)
      · rw [hok]
    exact ⟨f, hf, hpi, (process_image_ok_some fs f r hpi).1⟩
  · intro hnil
    simp only [create_geopackage, hc, hnil]
    rfl
  · intro hne
    have hfalse : (jpegs.filterMap (okRecord fs)).isEmpty = false := by
      simpa [List.isEmpty_iff] using hne
    simp only [create_geopackage, hc, hfalse]
    rfl

/-- Witness for C5 on a two-file batch with one geotagged image: exactly one
record is collected and the dataset is written with CRS EPSG:4326. -/
theorem C5_create_geopackage_records_witness :
    ∃ recs, collectResults fsMixed ["good.jpg", "plain.jpg"] = .ok recs ∧
      recs.length =
        List.countP (fun f => (okRecord fsMixed f).isSome) ["good.jpg", "plain.jpg"] ∧
      (∀ r ∈ recs, ∃ f ∈ ["good.jpg", "plain.jpg"],
          process_image fsMixed f = .ok (some r) ∧ r.filename = f) ∧
      (recs = [] → create_geopackage fsMixed ["good.jpg", "plain.jpg"] "out.gpkg" = .ok none) ∧
      (recs ≠ [] →
        create_geopackage fsMixed ["good.jpg", "plain.jpg"] "out.gpkg" =
          .ok (some ("out.gpkg", ⟨recs, "EPSG:4326"⟩))) :=
  C5_create_geopackage_records fsMixed ["good.jpg", "plain.jpg"] "out.gpkg"
    (by
      intro f hf
      simp only [List.mem_cons, List.not_mem_nil, or_false] at hf
      rcases hf with rfl | rfl
      · rfl
      · rfl)

/-- C9: batch processing is order-independent: running the per-file mapping
and collection over any permutation of the path list yields the same set
(indeed multiset) of records. -/
theorem C9_batch_order_independent (fs : FS) (l l' : List String) (hperm : l.Perm l')
    (h : ∀ f ∈ l, isOkE (process_image fs f) = true) :
    ∃ recs recs', collectResults fs l = .ok recs ∧ collectResults fs l' = .ok recs' ∧
      recs.Perm recs' ∧ ∀ r, r ∈ recs ↔ r ∈ recs' := by
  have h' : ∀ f ∈ l', isOkE (process_image fs f) = true := fun f hf =>
    h f (hperm.mem_iff.mpr hf)
  have hc := collectResults_eq_filterMap fs l h
  have hc' := collectResults_eq_filterMap fs l' h'
  have hp : (l.filterMap (okRecord fs)).Perm (l'.filterMap (okRecord fs)) :=
    hperm.filterMap _
  exact ⟨_, _, hc, hc', hp, fun r => hp.mem_iff⟩

/-- Witness for C9 on a two-file batch and its swap. -/
theorem C9_batch_order_independent_witness :
    ∃ recs recs', collectResults fsMixed ["good.jpg", "plain.jpg"] = .ok recs ∧
      collectResults fsMixed ["plain.jpg", "good.jpg"] = .ok recs' ∧
      recs.Perm recs' ∧ ∀ r, r ∈ recs ↔ r ∈ recs' :=
  C9_batch_order_independent fsMixed ["good.jpg", "plain.jpg"] ["plain.jpg", "good.jpg"]
    (List.Perm.swap "plain.jpg" "good.jpg" [])
    (by
      intro f hf
      simp only [List.mem_cons, List.not_mem_nil, or_false] at hf
      rcases hf with rfl | rfl
      · rfl
      · rfl)

end Exif2Geopackage
